import Mathlib

/-!
Verification development for the document-processing orchestration stack.

The authoritative source is the CDK stack that builds the Step Functions
state machine `DocumentProcessingStateMachine` (the variant that includes the
image-description stage).  The shallow embedding below translates, state by
state, the `definition` chain built from `textractTask` through
`successState` / `failureState`, together with the `Choice` conditions and
the `Pass`-state parameter mappings that the claims refer to.
-/

namespace DocProc

/-- Output of one Lambda stage as the state machine observes it: the
`statusCode` field read by the `numberEquals` conditions and the optional
`body` field read by the payload-size conditions
(`isPresent($.body)` / `stringGreaterThan($.body, '204800')`). -/
structure StageOutput where
  statusCode : Int
  body : Option String
  deriving DecidableEq, Repr

/-- The worker outputs that drive one execution: the Textract processor's
output (checked by `CheckTextractProcessing` / `CheckTextractPayloadSize`),
the metadata extractor's output (checked by `CheckMetadataExtraction` /
`CheckMetadataPayloadSize`) and the Bedrock knowledge-base Lambda's returned
payload, whose `statusCode` is what `CheckBedrockIntegration` reads at
`$.Payload.statusCode`. -/
structure Env where
  textract : StageOutput
  metadata : StageOutput
  bedrock : StageOutput
  deriving DecidableEq, Repr

/-- The literal second argument of both `stringGreaterThan` conditions in the
source: the string `'204800'` (commented there as 200KB in characters). -/
def sizeThresholdLiteral : String := "204800"

/-- Lexicographic order on character lists: a strict prefix is smaller, and
otherwise the first differing character decides. -/
def charListLt : List Char → List Char → Bool
  | [], [] => false
  | [], _ :: _ => true
  | _ :: _, [] => false
  | a :: as, b :: bs =>
      if a < b then true
      else if b < a then false
      else charListLt as bs

/-- Step Functions `Condition.stringGreaterThan(path, bound)`: the string
value at the path is compared with the bound lexicographically (a value
comparison, not a length comparison). -/
def stringGreaterThan (value bound : String) : Bool :=
  charListLt bound.data value.data

/-- The payload-size condition used by both `CheckTextractPayloadSize` and
`CheckMetadataPayloadSize`:
`Condition.and(isPresent($.body), stringGreaterThan($.body, '204800'))`. -/
def payloadSizeCond (body : Option String) : Bool :=
  match body with
  | some b => stringGreaterThan b sizeThresholdLiteral
  | none => false

/-- The states of `DocumentProcessingStateMachine`, one constructor per state
id appearing in the `definition` chain. -/
inductive SfnState where
  | processDocumentWithTextract
  | checkTextractProcessing
  | checkTextractPayloadSize
  | storeTextractResult
  | extractProcessedKeyLarge
  | extractProcessedKey
  | extractAndStoreMetadata
  | checkMetadataExtraction
  | checkMetadataPayloadSize
  | storeMetadataResult
  | retrievePayload
  | extractMetadataForBedrockLarge
  | generateImageDescriptionsLarge
  | mapImageDescriptionFieldsLarge
  | extractMetadataForBedrock
  | generateImageDescriptionsNormal
  | mapImageDescriptionFieldsNormal
  | addToBedrockKnowledgeBase
  | checkBedrockIntegration
  | processingSucceeded
  | processingFailed
  deriving DecidableEq, Repr

open SfnState

/-- The two terminal states of the definition: the `Succeed` state
`ProcessingSucceeded` and the `Fail` state `ProcessingFailed`. -/
def isTerminal : SfnState → Bool
  | processingSucceeded => true
  | processingFailed => true
  | _ => false

/-- One step of the state machine, read off the `definition` chain:
`.next` edges for task and pass states, and the `when`/`otherwise` branches
for the four `Choice` states. -/
def stepF (env : Env) : SfnState → SfnState
  | processDocumentWithTextract => checkTextractProcessing
  | checkTextractProcessing =>
      if env.textract.statusCode = 200 then checkTextractPayloadSize
      else processingFailed
  | checkTextractPayloadSize =>
      if payloadSizeCond env.textract.body then storeTextractResult
      else extractProcessedKey
  | storeTextractResult => extractProcessedKeyLarge
  | extractProcessedKeyLarge => extractAndStoreMetadata
  | extractProcessedKey => extractAndStoreMetadata
  | extractAndStoreMetadata => checkMetadataExtraction
  | checkMetadataExtraction =>
      if env.metadata.statusCode = 200 then checkMetadataPayloadSize
      else processingFailed
  | checkMetadataPayloadSize =>
      if payloadSizeCond env.metadata.body then storeMetadataResult
      else extractMetadataForBedrock
  | storeMetadataResult => retrievePayload
  | retrievePayload => extractMetadataForBedrockLarge
  | extractMetadataForBedrockLarge => generateImageDescriptionsLarge
  | generateImageDescriptionsLarge => mapImageDescriptionFieldsLarge
  | mapImageDescriptionFieldsLarge => addToBedrockKnowledgeBase
  | extractMetadataForBedrock => generateImageDescriptionsNormal
  | generateImageDescriptionsNormal => mapImageDescriptionFieldsNormal
  | mapImageDescriptionFieldsNormal => addToBedrockKnowledgeBase
  | addToBedrockKnowledgeBase => checkBedrockIntegration
  | checkBedrockIntegration =>
      if env.bedrock.statusCode = 200 then processingSucceeded
      else processingFailed
  | processingSucceeded => processingSucceeded
  | processingFailed => processingFailed

/-- The sequence of states visited from `s`, following `stepF` and stopping
at a terminal state; `fuel` bounds the recursion (any value at least the
longest path length gives the full trace). -/
def traceFrom : Nat → Env → SfnState → List SfnState
  | 0, _, s => [s]
  | n + 1, env, s =>
      if isTerminal s then [s]
      else s :: traceFrom n env (stepF env s)

/-- The full trace of one execution from the start state
`ProcessDocumentWithTextract`; fuel 20 exceeds the longest path (16 states). -/
def trace (env : Env) : List SfnState :=
  traceFrom 20 env processDocumentWithTextract

/-- The last state an execution reaches. -/
def finalState (env : Env) : SfnState :=
  (trace env).getLastD processingFailed

/-- The Lambda functions of the stack that the state machine invokes, named
after the source variables holding them. -/
inductive LambdaFn where
  | textractProcessorLambda
  | payloadUtilsLambda
  | retrievePayloadLambda
  | metadataExtractorLambda
  | imageDescriptionGeneratorLambda
  | bedrockKnowledgeBaseLambda
  deriving DecidableEq, Repr

/-- Which Lambda a state invokes: `some` exactly for the `LambdaInvoke` task
states of the definition, as wired in the source (`Pass`, `Choice`, `Succeed`
and `Fail` states invoke nothing). -/
def invokedLambda : SfnState → Option LambdaFn
  | processDocumentWithTextract => some LambdaFn.textractProcessorLambda
  | storeTextractResult => some LambdaFn.payloadUtilsLambda
  | extractAndStoreMetadata => some LambdaFn.metadataExtractorLambda
  | storeMetadataResult => some LambdaFn.payloadUtilsLambda
  | retrievePayload => some LambdaFn.retrievePayloadLambda
  | generateImageDescriptionsLarge => some LambdaFn.imageDescriptionGeneratorLambda
  | generateImageDescriptionsNormal => some LambdaFn.imageDescriptionGeneratorLambda
  | addToBedrockKnowledgeBase => some LambdaFn.bedrockKnowledgeBaseLambda
  | _ => none

/-- A state that invokes some Lambda, i.e. a `LambdaInvoke` task state. -/
def isTaskState (s : SfnState) : Bool :=
  (invokedLambda s).isSome

/-- The stages actually run by an execution: the task states of its trace, in
order. -/
def history (env : Env) : List SfnState :=
  (trace env).filter isTaskState

/-- A state invoking one of the four stage-worker roles (extraction, metadata,
image description, knowledge-base ingestion); the payload-utility and
payload-retrieval Lambdas are the payload store, not stage workers. -/
def isStageWorkerState (s : SfnState) : Bool :=
  match invokedLambda s with
  | some LambdaFn.textractProcessorLambda => true
  | some LambdaFn.metadataExtractorLambda => true
  | some LambdaFn.imageDescriptionGeneratorLambda => true
  | some LambdaFn.bedrockKnowledgeBaseLambda => true
  | _ => false

/-- The first stage-worker state reached from `s` (inclusive), following the
machine; `fuel` bounds the search as in `traceFrom`. -/
def firstStageWorkerFrom : Nat → Env → SfnState → Option SfnState
  | 0, _, _ => none
  | n + 1, env, s =>
      if isStageWorkerState s then some s
      else if isTerminal s then none
      else firstStageWorkerFrom n env (stepF env s)

/-- The `cause` and `error` properties of the single `Fail` state
`ProcessingFailed` in the source. -/
structure FailStateProps where
  cause : String
  error : String
  deriving DecidableEq, Repr

/-- The literal properties passed to `stepfunctions.Fail` in the source. -/
def processingFailedProps : FailStateProps :=
  { cause := "Document processing failed"
  , error := "DocumentProcessingError" }

/-- The failure cause an execution records: the shared `Fail` state's `cause`
when the run ends in `ProcessingFailed`, nothing otherwise. -/
def recordedCause (env : Env) : Option String :=
  if finalState env = processingFailed then some processingFailedProps.cause
  else none

/-- The `timeout` configured on `DocumentProcessingStateMachine`:
`cdk.Duration.minutes(30)`. -/
def stateMachineTimeoutMinutes : Nat := 30

section TraceShapes

/-- Trace when the Textract stage reports a non-200 status. -/
lemma trace_textract_fail (env : Env) (h : env.textract.statusCode ≠ 200) :
    trace env =
      [processDocumentWithTextract, checkTextractProcessing, processingFailed] := by
  simp [trace, traceFrom, stepF, isTerminal, h]

/-- Trace when Textract succeeds inline and metadata extraction fails. -/
lemma trace_inline_metadata_fail (env : Env) (hT : env.textract.statusCode = 200)
    (hsT : payloadSizeCond env.textract.body = false)
    (hM : env.metadata.statusCode ≠ 200) :
    trace env =
      [processDocumentWithTextract, checkTextractProcessing, checkTextractPayloadSize,
       extractProcessedKey, extractAndStoreMetadata, checkMetadataExtraction,
       processingFailed] := by
  simp [trace, traceFrom, stepF, isTerminal, hT, hsT, hM]

/-- Trace when Textract succeeds with an externalized payload and metadata
extraction fails. -/
lemma trace_large_metadata_fail (env : Env) (hT : env.textract.statusCode = 200)
    (hsT : payloadSizeCond env.textract.body = true)
    (hM : env.metadata.statusCode ≠ 200) :
    trace env =
      [processDocumentWithTextract, checkTextractProcessing, checkTextractPayloadSize,
       storeTextractResult, extractProcessedKeyLarge, extractAndStoreMetadata,
       checkMetadataExtraction, processingFailed] := by
  simp [trace, traceFrom, stepF, isTerminal, hT, hsT, hM]

/-- Trace of the all-inline path with a successful ingestion. -/
lemma trace_inline_inline_ok (env : Env) (hT : env.textract.statusCode = 200)
    (hsT : payloadSizeCond env.textract.body = false)
    (hM : env.metadata.statusCode = 200)
    (hsM : payloadSizeCond env.metadata.body = false)
    (hB : env.bedrock.statusCode = 200) :
    trace env =
      [processDocumentWithTextract, checkTextractProcessing, checkTextractPayloadSize,
       extractProcessedKey, extractAndStoreMetadata, checkMetadataExtraction,
       checkMetadataPayloadSize, extractMetadataForBedrock,
       generateImageDescriptionsNormal, mapImageDescriptionFieldsNormal,
       addToBedrockKnowledgeBase, checkBedrockIntegration, processingSucceeded] := by
  simp [trace, traceFrom, stepF, isTerminal, hT, hsT, hM, hsM, hB]

/-- Trace of the all-inline path with a failed ingestion. -/
lemma trace_inline_inline_fail (env : Env) (hT : env.textract.statusCode = 200)
    (hsT : payloadSizeCond env.textract.body = false)
    (hM : env.metadata.statusCode = 200)
    (hsM : payloadSizeCond env.metadata.body = false)
    (hB : env.bedrock.statusCode ≠ 200) :
    trace env =
      [processDocumentWithTextract, checkTextractProcessing, checkTextractPayloadSize,
       extractProcessedKey, extractAndStoreMetadata, checkMetadataExtraction,
       checkMetadataPayloadSize, extractMetadataForBedrock,
       generateImageDescriptionsNormal, mapImageDescriptionFieldsNormal,
       addToBedrockKnowledgeBase, checkBedrockIntegration, processingFailed] := by
  simp [trace, traceFrom, stepF, isTerminal, hT, hsT, hM, hsM, hB]

/-- Trace when only the metadata output is externalized and ingestion
succeeds. -/
lemma trace_inline_large_ok (env : Env) (hT : env.textract.statusCode = 200)
    (hsT : payloadSizeCond env.textract.body = false)
    (hM : env.metadata.statusCode = 200)
    (hsM : payloadSizeCond env.metadata.body = true)
    (hB : env.bedrock.statusCode = 200) :
    trace env =
      [processDocumentWithTextract, checkTextractProcessing, checkTextractPayloadSize,
       extractProcessedKey, extractAndStoreMetadata, checkMetadataExtraction,
       checkMetadataPayloadSize, storeMetadataResult, retrievePayload,
       extractMetadataForBedrockLarge, generateImageDescriptionsLarge,
       mapImageDescriptionFieldsLarge, addToBedrockKnowledgeBase,
       checkBedrockIntegration, processingSucceeded] := by
  simp [trace, traceFrom, stepF, isTerminal, hT, hsT, hM, hsM, hB]

/-- Trace when only the metadata output is externalized and ingestion
fails. -/
lemma trace_inline_large_fail (env : Env) (hT : env.textract.statusCode = 200)
    (hsT : payloadSizeCond env.textract.body = false)
    (hM : env.metadata.statusCode = 200)
    (hsM : payloadSizeCond env.metadata.body = true)
    (hB : env.bedrock.statusCode ≠ 200) :
    trace env =
      [processDocumentWithTextract, checkTextractProcessing, checkTextractPayloadSize,
       extractProcessedKey, extractAndStoreMetadata, checkMetadataExtraction,
       checkMetadataPayloadSize, storeMetadataResult, retrievePayload,
       extractMetadataForBedrockLarge, generateImageDescriptionsLarge,
       mapImageDescriptionFieldsLarge, addToBedrockKnowledgeBase,
       checkBedrockIntegration, processingFailed] := by
  simp [trace, traceFrom, stepF, isTerminal, hT, hsT, hM, hsM, hB]

/-- Trace when only the extraction output is externalized and ingestion
succeeds. -/
lemma trace_large_inline_ok (env : Env) (hT : env.textract.statusCode = 200)
    (hsT : payloadSizeCond env.textract.body = true)
    (hM : env.metadata.statusCode = 200)
    (hsM : payloadSizeCond env.metadata.body = false)
    (hB : env.bedrock.statusCode = 200) :
    trace env =
      [processDocumentWithTextract, checkTextractProcessing, checkTextractPayloadSize,
       storeTextractResult, extractProcessedKeyLarge, extractAndStoreMetadata,
       checkMetadataExtraction, checkMetadataPayloadSize, extractMetadataForBedrock,
       generateImageDescriptionsNormal, mapImageDescriptionFieldsNormal,
       addToBedrockKnowledgeBase, checkBedrockIntegration, processingSucceeded] := by
  simp [trace, traceFrom, stepF, isTerminal, hT, hsT, hM, hsM, hB]

/-- Trace when only the extraction output is externalized and ingestion
fails. -/
lemma trace_large_inline_fail (env : Env) (hT : env.textract.statusCode = 200)
    (hsT : payloadSizeCond env.textract.body = true)
    (hM : env.metadata.statusCode = 200)
    (hsM : payloadSizeCond env.metadata.body = false)
    (hB : env.bedrock.statusCode ≠ 200) :
    trace env =
      [processDocumentWithTextract, checkTextractProcessing, checkTextractPayloadSize,
       storeTextractResult, extractProcessedKeyLarge, extractAndStoreMetadata,
       checkMetadataExtraction, checkMetadataPayloadSize, extractMetadataForBedrock,
       generateImageDescriptionsNormal, mapImageDescriptionFieldsNormal,
       addToBedrockKnowledgeBase, checkBedrockIntegration, processingFailed] := by
  simp [trace, traceFrom, stepF, isTerminal, hT, hsT, hM, hsM, hB]

/-- Trace when both outputs are externalized and ingestion succeeds. -/
lemma trace_large_large_ok (env : Env) (hT : env.textract.statusCode = 200)
    (hsT : payloadSizeCond env.textract.body = true)
    (hM : env.metadata.statusCode = 200)
    (hsM : payloadSizeCond env.metadata.body = true)
    (hB : env.bedrock.statusCode = 200) :
    trace env =
      [processDocumentWithTextract, checkTextractProcessing, checkTextractPayloadSize,
       storeTextractResult, extractProcessedKeyLarge, extractAndStoreMetadata,
       checkMetadataExtraction, checkMetadataPayloadSize, storeMetadataResult,
       retrievePayload, extractMetadataForBedrockLarge, generateImageDescriptionsLarge,
       mapImageDescriptionFieldsLarge, addToBedrockKnowledgeBase,
       checkBedrockIntegration, processingSucceeded] := by
  simp [trace, traceFrom, stepF, isTerminal, hT, hsT, hM, hsM, hB]

/-- Trace when both outputs are externalized and ingestion fails. -/
lemma trace_large_large_fail (env : Env) (hT : env.textract.statusCode = 200)
    (hsT : payloadSizeCond env.textract.body = true)
    (hM : env.metadata.statusCode = 200)
    (hsM : payloadSizeCond env.metadata.body = true)
    (hB : env.bedrock.statusCode ≠ 200) :
    trace env =
      [processDocumentWithTextract, checkTextractProcessing, checkTextractPayloadSize,
       storeTextractResult, extractProcessedKeyLarge, extractAndStoreMetadata,
       checkMetadataExtraction, checkMetadataPayloadSize, storeMetadataResult,
       retrievePayload, extractMetadataForBedrockLarge, generateImageDescriptionsLarge,
       mapImageDescriptionFieldsLarge, addToBedrockKnowledgeBase,
       checkBedrockIntegration, processingFailed] := by
  simp [trace, traceFrom, stepF, isTerminal, hT, hsT, hM, hsM, hB]

end TraceShapes

/-- The transition relation of the definition, one constructor per edge:
`.next` edges of task and pass states, and guarded `when` / `otherwise`
edges of the four `Choice` states. -/
inductive Transition (env : Env) : SfnState → SfnState → Prop where
  | textractDone :
      Transition env processDocumentWithTextract checkTextractProcessing
  | textractOk : env.textract.statusCode = 200 →
      Transition env checkTextractProcessing checkTextractPayloadSize
  | textractFail : env.textract.statusCode ≠ 200 →
      Transition env checkTextractProcessing processingFailed
  | textractLarge : payloadSizeCond env.textract.body = true →
      Transition env checkTextractPayloadSize storeTextractResult
  | textractInline : payloadSizeCond env.textract.body = false →
      Transition env checkTextractPayloadSize extractProcessedKey
  | storeTextractDone :
      Transition env storeTextractResult extractProcessedKeyLarge
  | extractKeyLargeDone :
      Transition env extractProcessedKeyLarge extractAndStoreMetadata
  | extractKeyDone :
      Transition env extractProcessedKey extractAndStoreMetadata
  | metadataTaskDone :
      Transition env extractAndStoreMetadata checkMetadataExtraction
  | metadataOk : env.metadata.statusCode = 200 →
      Transition env checkMetadataExtraction checkMetadataPayloadSize
  | metadataFail : env.metadata.statusCode ≠ 200 →
      Transition env checkMetadataExtraction processingFailed
  | metadataLarge : payloadSizeCond env.metadata.body = true →
      Transition env checkMetadataPayloadSize storeMetadataResult
  | metadataInline : payloadSizeCond env.metadata.body = false →
      Transition env checkMetadataPayloadSize extractMetadataForBedrock
  | storeMetadataDone :
      Transition env storeMetadataResult retrievePayload
  | retrieveDone :
      Transition env retrievePayload extractMetadataForBedrockLarge
  | extractForBedrockLargeDone :
      Transition env extractMetadataForBedrockLarge generateImageDescriptionsLarge
  | genImageLargeDone :
      Transition env generateImageDescriptionsLarge mapImageDescriptionFieldsLarge
  | mapFieldsLargeDone :
      Transition env mapImageDescriptionFieldsLarge addToBedrockKnowledgeBase
  | extractForBedrockDone :
      Transition env extractMetadataForBedrock generateImageDescriptionsNormal
  | genImageNormalDone :
      Transition env generateImageDescriptionsNormal mapImageDescriptionFieldsNormal
  | mapFieldsNormalDone :
      Transition env mapImageDescriptionFieldsNormal addToBedrockKnowledgeBase
  | bedrockDone :
      Transition env addToBedrockKnowledgeBase checkBedrockIntegration
  | bedrockOk : env.bedrock.statusCode = 200 →
      Transition env checkBedrockIntegration processingSucceeded
  | bedrockFail : env.bedrock.statusCode ≠ 200 →
      Transition env checkBedrockIntegration processingFailed

/-- A reference into the payload bucket, as produced by the payload-utility
Lambda and read back at `$.payload_reference.key`. -/
structure PayloadReference where
  bucket : String
  key : String
  deriving DecidableEq, Repr

/-- The fields of the `StoreTextractResult` output that the large-path `Pass`
state reads: `$.payload_reference` and `$.original_status_code`. -/
structure StoredPayloadOutput where
  payload_reference : PayloadReference
  original_status_code : Int
  deriving DecidableEq, Repr

/-- The record both `ExtractProcessedKey*` `Pass` states produce for the
metadata-extraction task. -/
structure MetadataTaskInput where
  processed_bucket : String
  processed_key : String
  original_status_code : Int
  deriving DecidableEq, Repr

/-- The `Pass` state `ExtractProcessedKeyLarge` of the source: the
externalized branch takes `processed_key` from `$.payload_reference.key`. -/
def extractProcessedKeyLargeState (processedBucketName : String)
    (input : StoredPayloadOutput) : MetadataTaskInput :=
  { processed_bucket := processedBucketName
  , processed_key := input.payload_reference.key
  , original_status_code := input.original_status_code }

/-- The `Pass` state `ExtractProcessedKey` of the source: the inline branch
sets `processed_key` to the literal `'dummy-key'` (source comment: the key
will be extracted in the Lambda function) and `original_status_code` to
`$.statusCode`. -/
def extractProcessedKeyState (processedBucketName : String)
    (output : StageOutput) : MetadataTaskInput :=
  { processed_bucket := processedBucketName
  , processed_key := "dummy-key"
  , original_status_code := output.statusCode }

/-- Outcome of one run as recorded for the caller. -/
inductive RunOutcome where
  | Succeeded
  | Failed
  | Cancelled
  deriving DecidableEq, Repr

/-- Modelled from the spec: external cancellation of an in-flight execution
is not part of the state-machine definition in the source (stopping an
execution is a platform operation, and no repository code performs it); the
spec requires a cancelled run to end in the distinct terminal outcome
`Cancelled`, never `Failed`, with no automatic retry. An uncancelled run's
outcome is determined by the terminal state its trace reaches. -/
def runOutcome (env : Env) (cancelled : Bool) : RunOutcome :=
  if cancelled then RunOutcome.Cancelled
  else if finalState env = processingSucceeded then RunOutcome.Succeeded
  else RunOutcome.Failed

section SampleEnvs

/-- A run whose Textract stage reports status 500. -/
def envTextractFail : Env :=
  { textract := { statusCode := 500, body := none }
  , metadata := { statusCode := 200, body := none }
  , bedrock := { statusCode := 200, body := none } }

/-- A run whose Textract stage succeeds inline and whose metadata stage
reports status 500. -/
def envMetadataFail : Env :=
  { textract := { statusCode := 200, body := some "1" }
  , metadata := { statusCode := 500, body := none }
  , bedrock := { statusCode := 200, body := none } }

/-- A fully successful run in which both size checks take the inline
branch (both bodies compare lexicographically below the threshold
literal). -/
def envAllInline : Env :=
  { textract := { statusCode := 200, body := some "1" }
  , metadata := { statusCode := 200, body := some "1" }
  , bedrock := { statusCode := 200, body := none } }

/-- A fully successful run in which both size checks take the externalize
branch (both bodies compare lexicographically above the threshold
literal). -/
def envBothLarge : Env :=
  { textract := { statusCode := 200, body := some "3" }
  , metadata := { statusCode := 200, body := some "3" }
  , bedrock := { statusCode := 200, body := none } }

/-- A fully successful run in which neither stage output carries a `body`
field at all. -/
def envNoBody : Env :=
  { textract := { statusCode := 200, body := none }
  , metadata := { statusCode := 200, body := none }
  , bedrock := { statusCode := 200, body := none } }

/-- A serialized payload of 204801 characters, one more than the numeric
threshold the source's comment describes. -/
def oversizedZeros : String := String.mk (List.replicate 204801 '0')

end SampleEnvs

/-- Shape facts holding for every execution: no state repeats in the trace,
the last state is one of the two terminal states of the definition, and the
run succeeds exactly when all three status checks observe 200. -/
lemma trace_spec (env : Env) :
    (trace env).Nodup ∧
    (finalState env = processingSucceeded ∨ finalState env = processingFailed) ∧
    (finalState env = processingSucceeded ↔
      (env.textract.statusCode = 200 ∧ env.metadata.statusCode = 200 ∧
        env.bedrock.statusCode = 200)) := by
  by_cases hT : env.textract.statusCode = 200
  · by_cases hM : env.metadata.statusCode = 200
    · by_cases hB : env.bedrock.statusCode = 200
      · cases hsT : payloadSizeCond env.textract.body <;>
          cases hsM : payloadSizeCond env.metadata.body
        · have h := trace_inline_inline_ok env hT hsT hM hsM hB
          have hf : finalState env = processingSucceeded := by
            simp only [finalState]; rw [h]; decide
          exact ⟨by rw [h]; decide, Or.inl hf, by simp [hf, hT, hM, hB]⟩
        · have h := trace_inline_large_ok env hT hsT hM hsM hB
          have hf : finalState env = processingSucceeded := by
            simp only [finalState]; rw [h]; decide
          exact ⟨by rw [h]; decide, Or.inl hf, by simp [hf, hT, hM, hB]⟩
        · have h := trace_large_inline_ok env hT hsT hM hsM hB
          have hf : finalState env = processingSucceeded := by
            simp only [finalState]; rw [h]; decide
          exact ⟨by rw [h]; decide, Or.inl hf, by simp [hf, hT, hM, hB]⟩
        · have h := trace_large_large_ok env hT hsT hM hsM hB
          have hf : finalState env = processingSucceeded := by
            simp only [finalState]; rw [h]; decide
          exact ⟨by rw [h]; decide, Or.inl hf, by simp [hf, hT, hM, hB]⟩
      · cases hsT : payloadSizeCond env.textract.body <;>
          cases hsM : payloadSizeCond env.metadata.body
        · have h := trace_inline_inline_fail env hT hsT hM hsM hB
          have hf : finalState env = processingFailed := by
            simp only [finalState]; rw [h]; decide
          exact ⟨by rw [h]; decide, Or.inr hf, by simp [hf, hB]⟩
        · have h := trace_inline_large_fail env hT hsT hM hsM hB
          have hf : finalState env = processingFailed := by
            simp only [finalState]; rw [h]; decide
          exact ⟨by rw [h]; decide, Or.inr hf, by simp [hf, hB]⟩
        · have h := trace_large_inline_fail env hT hsT hM hsM hB
          have hf : finalState env = processingFailed := by
            simp only [finalState]; rw [h]; decide
          exact ⟨by rw [h]; decide, Or.inr hf, by simp [hf, hB]⟩
        · have h := trace_large_large_fail env hT hsT hM hsM hB
          have hf : finalState env = processingFailed := by
            simp only [finalState]; rw [h]; decide
          exact ⟨by rw [h]; decide, Or.inr hf, by simp [hf, hB]⟩
    · cases hsT : payloadSizeCond env.textract.body
      · have h := trace_inline_metadata_fail env hT hsT hM
        have hf : finalState env = processingFailed := by
          simp only [finalState]; rw [h]; decide
        exact ⟨by rw [h]; decide, Or.inr hf, by simp [hf, hM]⟩
      · have h := trace_large_metadata_fail env hT hsT hM
        have hf : finalState env = processingFailed := by
          simp only [finalState]; rw [h]; decide
        exact ⟨by rw [h]; decide, Or.inr hf, by simp [hf, hM]⟩
  · have h := trace_textract_fail env hT
    have hf : finalState env = processingFailed := by
      simp only [finalState]; rw [h]; decide
    exact ⟨by rw [h]; decide, Or.inr hf, by simp [hf, hT]⟩

/-- Claim C1: contrary to the claim, the Size-Guard does not compare the
serialized payload's character length with 204800: the condition
`stringGreaterThan($.body, '204800')` compares the body's string value
lexicographically with the literal `'204800'`. A one-character body `"3"`
(length 1, far below the threshold) takes the externalize branch, while a
204801-character body of zeros (length above the threshold) stays inline. -/
theorem sizeGuard_compares_value_not_length :
    payloadSizeCond (some "3") = true ∧
    ("3" : String).length = 1 ∧
    payloadSizeCond (some oversizedZeros) = false ∧
    oversizedZeros.length = 204801 := by
  refine ⟨by decide, by decide, by decide, ?_⟩
  show (String.mk (List.replicate 204801 '0')).length = 204801
  rw [String.length, List.length_replicate]

/-- Claim C2: whenever a stage reports a status code other than 200 at its
status-check state, the execution's next state is the shared `Fail` state,
and the corresponding size-decision state and every later stage are never
reached in the trace. -/
theorem non200_status_goes_to_failed (env : Env) :
    (env.textract.statusCode ≠ 200 →
      trace env =
        [processDocumentWithTextract, checkTextractProcessing, processingFailed]) ∧
    (env.metadata.statusCode ≠ 200 →
      stepF env checkMetadataExtraction = processingFailed ∧
      checkMetadataPayloadSize ∉ trace env ∧
      generateImageDescriptionsNormal ∉ trace env ∧
      generateImageDescriptionsLarge ∉ trace env ∧
      addToBedrockKnowledgeBase ∉ trace env ∧
      processingSucceeded ∉ trace env) ∧
    (env.bedrock.statusCode ≠ 200 →
      stepF env checkBedrockIntegration = processingFailed ∧
      processingSucceeded ∉ trace env) := by
  refine ⟨fun hT => trace_textract_fail env hT, fun hM => ?_, fun hB => ?_⟩
  · refine ⟨by simp [stepF, hM], ?_⟩
    by_cases hT : env.textract.statusCode = 200
    · cases hsT : payloadSizeCond env.textract.body
      · rw [trace_inline_metadata_fail env hT hsT hM]; decide
      · rw [trace_large_metadata_fail env hT hsT hM]; decide
    · rw [trace_textract_fail env hT]; decide
  · refine ⟨by simp [stepF, hB], ?_⟩
    by_cases hT : env.textract.statusCode = 200
    · by_cases hM : env.metadata.statusCode = 200
      · cases hsT : payloadSizeCond env.textract.body <;>
          cases hsM : payloadSizeCond env.metadata.body
        · rw [trace_inline_inline_fail env hT hsT hM hsM hB]; decide
        · rw [trace_inline_large_fail env hT hsT hM hsM hB]; decide
        · rw [trace_large_inline_fail env hT hsT hM hsM hB]; decide
        · rw [trace_large_large_fail env hT hsT hM hsM hB]; decide
      · cases hsT : payloadSizeCond env.textract.body
        · rw [trace_inline_metadata_fail env hT hsT hM]; decide
        · rw [trace_large_metadata_fail env hT hsT hM]; decide
    · rw [trace_textract_fail env hT]; decide

/-- Witness for claim C2: a run whose Textract stage reports status 500 ends
immediately in the `Fail` state. -/
theorem non200_status_goes_to_failed_witness :
    trace envTextractFail =
      [processDocumentWithTextract, checkTextractProcessing, processingFailed] :=
  (non200_status_goes_to_failed envTextractFail).1 (by decide)

/-- Counterexample to claim C3: the definition has a single shared `Fail`
state whose `cause` is the fixed literal, so a Textract failure and a
metadata failure record the same cause, and the cause is not of the claimed
form naming the failing stage. -/
theorem failure_cause_does_not_name_stage :
    recordedCause envTextractFail = some "Document processing failed" ∧
    recordedCause envMetadataFail = some "Document processing failed" ∧
    recordedCause envTextractFail = recordedCause envMetadataFail ∧
    processingFailedProps.cause ≠
      "stage ProcessDocumentWithTextract returned non-success status" ∧
    processingFailedProps.cause ≠
      "stage ExtractAndStoreMetadata returned non-success status" := by
  decide

/-- Claim C3 (amended): when any stage returns a non-200 status the execution
transitions to `Failed` with the fixed cause of the shared `Fail` state,
`'Document processing failed'` with error `'DocumentProcessingError'`,
identical regardless of which stage failed. -/
theorem failure_records_fixed_cause (env : Env)
    (h : env.textract.statusCode ≠ 200 ∨ env.metadata.statusCode ≠ 200 ∨
      env.bedrock.statusCode ≠ 200) :
    finalState env = processingFailed ∧
    recordedCause env = some processingFailedProps.cause ∧
    processingFailedProps.cause = "Document processing failed" ∧
    processingFailedProps.error = "DocumentProcessingError" := by
  have hiff := (trace_spec env).2.2
  have hfail : finalState env = processingFailed := by
    rcases (trace_spec env).2.1 with hs | hf
    · rcases hiff.mp hs with ⟨h1, h2, h3⟩
      rcases h with h | h | h
      exacts [absurd h1 h, absurd h2 h, absurd h3 h]
    · exact hf
  exact ⟨hfail, by simp [recordedCause, hfail], rfl, rfl⟩

/-- Witness for claim C3 (amended) at a run failing in the Textract stage. -/
theorem failure_records_fixed_cause_witness :
    finalState envTextractFail = processingFailed ∧
    recordedCause envTextractFail = some processingFailedProps.cause ∧
    processingFailedProps.cause = "Document processing failed" ∧
    processingFailedProps.error = "DocumentProcessingError" :=
  failure_records_fixed_cause envTextractFail (Or.inl (by decide))

/-- Claim C4: every execution reaches a terminal state of the definition
(`ProcessingSucceeded` or `ProcessingFailed`), the run outcome is always one
of Succeeded, Failed or Cancelled, and a cancelled run yields the distinct
outcome `Cancelled`, never `Failed`. -/
theorem run_ends_in_exactly_one_terminal_outcome (env : Env) (cancelled : Bool) :
    isTerminal (finalState env) = true ∧
    (runOutcome env cancelled = RunOutcome.Succeeded ∨
      runOutcome env cancelled = RunOutcome.Failed ∨
      runOutcome env cancelled = RunOutcome.Cancelled) ∧
    (cancelled = true →
      runOutcome env cancelled = RunOutcome.Cancelled ∧
      runOutcome env cancelled ≠ RunOutcome.Failed) := by
  refine ⟨?_, ?_, ?_⟩
  · rcases (trace_spec env).2.1 with h | h <;> simp [h, isTerminal]
  · cases hout : runOutcome env cancelled <;> simp [hout]
  · intro hc
    simp [runOutcome, hc]

/-- Witness for claim C4: a cancelled run records the outcome `Cancelled`. -/
theorem run_ends_in_exactly_one_terminal_outcome_witness :
    runOutcome envAllInline true = RunOutcome.Cancelled :=
  ((run_ends_in_exactly_one_terminal_outcome envAllInline true).2.2 rfl).1

/-- Counterexample to claim C5: on the all-inline successful path the
execution runs 4 Lambda task stages (Textract, metadata, image description,
knowledge-base ingestion), not 3 as claimed, and on the path externalizing
both outputs it runs 7 task stages, more than the claimed maximum of 5. -/
theorem history_length_not_three_or_five :
    finalState envAllInline = processingSucceeded ∧
    (history envAllInline).length = 4 ∧
    finalState envBothLarge = processingSucceeded ∧
    (history envBothLarge).length = 7 := by
  decide

/-- Claim C5 (amended): the history (the task states actually visited)
contains exactly 4 stages on the all-inline path and exactly 7 on the path
where both the extraction output and the metadata output are externalized. -/
theorem history_length_matches_branch (env : Env)
    (hT : env.textract.statusCode = 200) (hM : env.metadata.statusCode = 200) :
    (payloadSizeCond env.textract.body = false →
      payloadSizeCond env.metadata.body = false → (history env).length = 4) ∧
    (payloadSizeCond env.textract.body = true →
      payloadSizeCond env.metadata.body = true → (history env).length = 7) := by
  constructor <;> intro hsT hsM <;> by_cases hB : env.bedrock.statusCode = 200
  · simp only [history]; rw [trace_inline_inline_ok env hT hsT hM hsM hB]; decide
  · simp only [history]; rw [trace_inline_inline_fail env hT hsT hM hsM hB]; decide
  · simp only [history]; rw [trace_large_large_ok env hT hsT hM hsM hB]; decide
  · simp only [history]; rw [trace_large_large_fail env hT hsT hM hsM hB]; decide

/-- Witness for claim C5 (amended) at the all-inline successful run. -/
theorem history_length_matches_branch_witness :
    (history envAllInline).length = 4 :=
  (history_length_matches_branch envAllInline (by decide) (by decide)).1
    (by decide) (by decide)

/-- Claim C6: the inline and externalize branches of each size decision
converge to the same downstream stage: after the Textract size decision the
first stage-worker reached on either branch is the metadata extractor, and
after the metadata size decision both branches reach an image-description
stage invoking the same Lambda and then the same knowledge-base ingestion
state. -/
theorem size_branches_converge (env : Env) :
    firstStageWorkerFrom 20 env storeTextractResult = some extractAndStoreMetadata ∧
    firstStageWorkerFrom 20 env extractProcessedKey = some extractAndStoreMetadata ∧
    invokedLambda extractAndStoreMetadata = some LambdaFn.metadataExtractorLambda ∧
    ((firstStageWorkerFrom 20 env storeMetadataResult).bind invokedLambda =
      some LambdaFn.imageDescriptionGeneratorLambda) ∧
    ((firstStageWorkerFrom 20 env extractMetadataForBedrock).bind invokedLambda =
      some LambdaFn.imageDescriptionGeneratorLambda) ∧
    stepF env (stepF env (stepF env (stepF env (stepF env storeMetadataResult)))) =
      addToBedrockKnowledgeBase ∧
    stepF env (stepF env (stepF env extractMetadataForBedrock)) =
      addToBedrockKnowledgeBase := by
  refine ⟨?_, ?_, rfl, ?_, ?_, rfl, rfl⟩ <;>
    simp [firstStageWorkerFrom, stepF, isStageWorkerState, invokedLambda, isTerminal]

/-- Claim C7: the transition relation of the definition is deterministic:
from any state, under the same worker outputs and payload bodies, at most one
successor is enabled. -/
theorem transition_deterministic (env : Env) (s s₁ s₂ : SfnState)
    (h₁ : Transition env s s₁) (h₂ : Transition env s s₂) : s₁ = s₂ := by
  cases h₁ <;> cases h₂ <;> simp_all

/-- Witness for claim C7: at the status check after a successful Textract
stage, the two applicable transition derivations agree. -/
theorem transition_deterministic_witness :
    checkTextractPayloadSize = checkTextractPayloadSize :=
  transition_deterministic envAllInline checkTextractProcessing _ _
    (Transition.textractOk (by decide)) (Transition.textractOk (by decide))

/-- Claim C8: the inline branch's `ExtractProcessedKey` pass sets
`processed_key` to the literal placeholder `'dummy-key'`, independent of the
extractor's actual output, while the externalized branch's
`ExtractProcessedKeyLarge` takes it from `$.payload_reference.key`. -/
theorem inline_processed_key_is_dummy (bucket : String) (out₁ out₂ : StageOutput)
    (stored : StoredPayloadOutput) :
    (extractProcessedKeyState bucket out₁).processed_key = "dummy-key" ∧
    (extractProcessedKeyState bucket out₁).processed_key =
      (extractProcessedKeyState bucket out₂).processed_key ∧
    (extractProcessedKeyLargeState bucket stored).processed_key =
      stored.payload_reference.key :=
  ⟨rfl, rfl, rfl⟩

/-- Claim C9: every execution terminates, no state is revisited within one
execution (the trace has no duplicates), and the pipeline carries the
30-minute wall-clock timeout configured on the state machine. -/
theorem execution_terminates_without_revisits (env : Env) :
    (trace env).Nodup ∧
    isTerminal (finalState env) = true ∧
    stateMachineTimeoutMinutes = 30 := by
  refine ⟨(trace_spec env).1, ?_, rfl⟩
  rcases (trace_spec env).2.1 with h | h <;> simp [h, isTerminal]

/-- Claim C10: with a status-200 output lacking a `body` field the size
decision takes the inline branch and proceeds to the next stage, and the
externalize branch is reachable only when `body` is present. -/
theorem absent_body_stays_inline (env : Env) :
    (env.textract.body = none →
      stepF env checkTextractPayloadSize = extractProcessedKey) ∧
    (stepF env checkTextractPayloadSize = storeTextractResult →
      env.textract.body.isSome = true) ∧
    (env.metadata.body = none →
      stepF env checkMetadataPayloadSize = extractMetadataForBedrock) ∧
    (stepF env checkMetadataPayloadSize = storeMetadataResult →
      env.metadata.body.isSome = true) ∧
    stepF env extractProcessedKey = extractAndStoreMetadata := by
  refine ⟨fun h => ?_, fun h => ?_, fun h => ?_, fun h => ?_, rfl⟩
  · simp [stepF, payloadSizeCond, h]
  · cases hb : env.textract.body with
    | none => simp [stepF, payloadSizeCond, hb] at h
    | some b => simp
  · simp [stepF, payloadSizeCond, h]
  · cases hb : env.metadata.body with
    | none => simp [stepF, payloadSizeCond, hb] at h
    | some b => simp

/-- Witness for claim C10: a successful Textract output with no body at all
proceeds on the inline branch. -/
theorem absent_body_stays_inline_witness :
    stepF envNoBody checkTextractPayloadSize = extractProcessedKey :=
  (absent_body_stays_inline envNoBody).1 rfl

end DocProc
